import Mathlib

/-!
Shallow embedding of the a11y slider widget (main variant `src/main.ts`, plus
the divergent numeric kernels of the other variants in the corpus).
JavaScript numbers are modelled as rationals; `Math.floor` is `Int.floor`
cast back to the rationals.
-/

/-- `Math.floor` of JavaScript, on the rational model of JS numbers. -/
def jsFloor (q : ℚ) : ℚ := (⌊q⌋ : ℚ)

/-- `clampNumber(num, min, max) = Math.min(Math.max(num, min), max)` from
`src/utils/clampNumber.ts`. -/
def clampNumber (num min max : ℚ) : ℚ := Min.min (Max.max num min) max

/-- The runtime shape of an interaction event: `MouseEvent`, `TouchEvent`
(for a touch, the coordinates are those of `changedTouches[0]`), or any
other event kind that reaches the handler. -/
inductive SomeEvent where
  | mouse (pageX pageY : ℚ)
  | touch (pageX pageY : ℚ)
  | other
deriving DecidableEq, Repr

/-- The numeric state of a `Slider` instance from `src/main.ts`: the
configuration fields, the normalized progress value (the only mutable
field), and whether an `onChange` callback was registered. -/
structure Slider where
  min : ℚ
  max : ℚ
  step : ℚ
  defaultValue : ℚ
  progressValue : ℚ
  hasOnChange : Bool
deriving DecidableEq, Repr

/-- `#calcStepValue = (step = 1, max) => (step > 0 ? step : 1) / max` from
`src/main.ts`; `none` models an omitted `step` argument (JS default 1). -/
def calcStepValue (stepOpt : Option ℚ) (max : ℚ) : ℚ :=
  let step := stepOpt.getD 1
  (if step > 0 then step else 1) / max

/-- `#updateProgressValue(newValue)` from `src/main.ts`: stores
`clampNumber(newValue, min / max, 1)` as the new progress. -/
def Slider.updateProgressValue (s : Slider) (newValue : ℚ) : Slider :=
  let minValue := s.min / s.max
  { s with progressValue := clampNumber newValue minValue 1 }

/-- `#initDefaultValue` from `src/main.ts`: converts the default value to a
progress fraction and stores it through `#updateProgressValue`. -/
def Slider.initDefaultValue (s : Slider) : Slider :=
  s.updateProgressValue (s.defaultValue / s.max)

/-- The constructor of `Slider` from `src/main.ts`, restricted to its
numeric effect: `defaultValue || 0`, `progressValue = 0`,
`step = #calcStepValue(step, max)`, then `#initDefaultValue()`. -/
def mkSlider (min max : ℚ) (stepOpt defOpt : Option ℚ) (hasOnChange : Bool) : Slider :=
  Slider.initDefaultValue
    { min := min
      max := max
      step := calcStepValue stepOpt max
      defaultValue := defOpt.getD 0
      progressValue := 0
      hasOnChange := hasOnChange }

/-- The public `value` getter from `src/main.ts`: quantize
`max * progressValue` to the step grid, clamp to `[min, max]`, floor. -/
def Slider.value (s : Slider) : ℚ :=
  let totalValue := s.max * s.progressValue
  let step := s.step * s.max
  jsFloor (clampNumber (jsFloor (totalValue / step) * step) s.min s.max)

/-- `#getGreaterStepValue` from `src/main.ts`: the PageUp/PageDown step,
at least 10% of full travel. -/
def Slider.getGreaterStepValue (s : Slider) : ℚ :=
  let maxAdditional : ℚ := 1 / 10
  if s.step < maxAdditional then maxAdditional else s.step

/-- `#notifyListeners` from `src/main.ts`: `some v` means the registered
`onChange` callback was invoked with `v`; `none` means no callback was
registered (so none was invoked). -/
def Slider.notifyListeners (s : Slider) : Option ℚ :=
  if s.hasOnChange then some s.value else none

/-- The `switch (code)` of `#onKeyDown` from `src/main.ts`, computing the
candidate new progress value for a key. -/
def Slider.keyNewValue (s : Slider) (key : String) : ℚ :=
  let minValue := s.min / s.max
  let greaterStep := s.getGreaterStepValue
  if key = "ArrowUp" ∨ key = "ArrowRight" then s.progressValue + s.step
  else if key = "ArrowDown" ∨ key = "ArrowLeft" then s.progressValue - s.step
  else if key = "Home" then minValue / s.step * s.step
  else if key = "End" then 1
  else if key = "PageUp" then s.progressValue + greaterStep
  else if key = "PageDown" then s.progressValue - greaterStep
  else s.progressValue

/-- `#onKeyDown` from `src/main.ts`: for every key (recognized or not) it
runs `#updateProgressValue(newValue)` and then `#notifyListeners()`; the
second component records the callback invocation. -/
def Slider.onKeyDown (s : Slider) (key : String) : Slider × Option ℚ :=
  let s' := s.updateProgressValue (s.keyNewValue key)
  (s', s'.notifyListeners)

/-- `#getInteractionCoords` from `src/main.ts`: `pageX` for mouse and touch
events, `throw new Error("Unsuported event")` for anything else. -/
def Slider.getInteractionCoords (evt : SomeEvent) : Except String ℚ :=
  match evt with
  | SomeEvent.mouse pageX _ => Except.ok pageX
  | SomeEvent.touch pageX _ => Except.ok pageX
  | SomeEvent.other => Except.error "Unsuported event"

/-- `#onInteraction` from `src/main.ts`: extract the coordinate, map it to
a raw progress fraction against the track geometry, update the progress,
notify. `left` and `width` come from `getBoundingClientRect()`. -/
def Slider.onInteraction (s : Slider) (evt : SomeEvent) (left width : ℚ) :
    Except String (Slider × Option ℚ) :=
  match Slider.getInteractionCoords evt with
  | Except.error e => Except.error e
  | Except.ok x =>
    let startX := x - left
    let movedProgress := startX / (width - 10)
    let s' := s.updateProgressValue movedProgress
    Except.ok (s', s'.notifyListeners)

/-- `#getEventCoords` of the variant in `unnamed/part_000`: starts from
`{x: 0, y: 0}` and only overwrites the coordinates for mouse and touch
events, so any other event kind yields `(0, 0)` without error. -/
def Variant000.getEventCoords (evt : SomeEvent) : ℚ × ℚ :=
  match evt with
  | SomeEvent.mouse x y => (x, y)
  | SomeEvent.touch x y => (x, y)
  | SomeEvent.other => (0, 0)

/-- `#calcStepValue = (step = 1, max) => (step / max) * 100` of the variant
in `unnamed/part_001`: no positivity fallback, result in percent units. -/
def Variant001.calcStepValue (stepOpt : Option ℚ) (max : ℚ) : ℚ :=
  (stepOpt.getD 1 / max) * 100

/-- `#getInteractionCoords` of the variant in `unnamed/part_003`: returns
`0` for any event that is neither a mouse nor a touch event. -/
def Variant003.getInteractionCoords (evt : SomeEvent) : ℚ :=
  match evt with
  | SomeEvent.mouse x _ => x
  | SomeEvent.touch x _ => x
  | SomeEvent.other => 0

/-- `#calcStepValue = (step = 1, max) => (step > 0 ? step : 1) / max * 100`
of the variant in `unnamed/part_003`. -/
def Variant003.calcStepValue (stepOpt : Option ℚ) (max : ℚ) : ℚ :=
  (if stepOpt.getD 1 > 0 then stepOpt.getD 1 else 1) / max * 100

/-- Step resolution exactly as the spec words it: given the caller-supplied
step and `max`, `progressStep = (step > 0 ? step : 1) / max`. -/
def specProgressStep (step max : ℚ) : ℚ :=
  (if step > 0 then step else 1) / max

/-- Modelled from the spec: `valueToPercent(value, min, max)` returns
`(value - min) / (max - min)`. The file `src/utils/valueToPercent.ts` is
not present in the corpus; only its importers are. -/
def valueToPercent (value min max : ℚ) : ℚ := (value - min) / (max - min)

/-- Modelled from the spec: `percentToValue(percent, min, max)` returns
`min + percent * (max - min)`. The file `src/utils/percentToValue.ts` is
not present in the corpus; only its importers are. -/
def percentToValue (percent min max : ℚ) : ℚ := min + percent * (max - min)

/-- The effective step in value units: the caller-supplied step when it is
positive, else the fallback `1`. Used to state divisibility hypotheses. -/
def effectiveStep (stepOpt : Option ℚ) : ℚ :=
  if stepOpt.getD 1 > 0 then stepOpt.getD 1 else 1

/-- The invariant range of the stored progress: `[min / max, 1]`. -/
def progressInRange (min max : ℚ) (s : Slider) : Prop :=
  min / max ≤ s.progressValue ∧ s.progressValue ≤ 1

/-! ### Helper lemmas about the numeric kernel -/

theorem clampNumber_le_right (num min max : ℚ) : clampNumber num min max ≤ max :=
  min_le_right _ _

theorem le_clampNumber (num min max : ℚ) (h : min ≤ max) : min ≤ clampNumber num min max :=
  le_min (le_max_right _ _) h

theorem clampNumber_eq_self (num min max : ℚ) (h1 : min ≤ num) (h2 : num ≤ max) :
    clampNumber num min max = num := by
  unfold clampNumber
  rw [max_eq_left h1, min_eq_left h2]

theorem clampNumber_top (min max : ℚ) : clampNumber max min max = max := by
  unfold clampNumber
  exact min_eq_right (le_max_left max min)

theorem jsFloor_le (q : ℚ) : jsFloor q ≤ q := Int.floor_le q

theorem jsFloor_intCast (k : ℤ) : jsFloor (k : ℚ) = (k : ℚ) := by
  simp [jsFloor]

theorem le_jsFloor (lo q : ℚ) (hlo : (⌊lo⌋ : ℚ) = lo) (h : lo ≤ q) : lo ≤ jsFloor q := by
  rw [← hlo, jsFloor]
  exact_mod_cast Int.floor_mono h

theorem updateProgressValue_progress (s : Slider) (x : ℚ) :
    (s.updateProgressValue x).progressValue = clampNumber x (s.min / s.max) 1 := rfl

theorem updateProgressValue_mem (s : Slider) (x : ℚ) (h : s.min / s.max ≤ 1) :
    s.min / s.max ≤ (s.updateProgressValue x).progressValue ∧
      (s.updateProgressValue x).progressValue ≤ 1 := by
  rw [updateProgressValue_progress]
  exact ⟨le_clampNumber _ _ _ h, clampNumber_le_right _ _ _⟩

theorem value_mem (s : Slider) (h : s.min ≤ s.max) (hmin : (⌊s.min⌋ : ℚ) = s.min) :
    s.min ≤ s.value ∧ s.value ≤ s.max := by
  unfold Slider.value
  exact ⟨le_jsFloor _ _ hmin (le_clampNumber _ _ _ h),
    le_trans (jsFloor_le _) (clampNumber_le_right _ _ _)⟩

theorem onKeyDown_fst (s : Slider) (key : String) :
    (s.onKeyDown key).1 = s.updateProgressValue (s.keyNewValue key) := rfl

theorem keyNewValue_end (s : Slider) : s.keyNewValue "End" = 1 := by
  simp [Slider.keyNewValue]

/-! ### C8 -/

/-- C8: clampNumber is idempotent and bounded: for all x and all lo <= hi,
clampNumber(clampNumber(x, lo, hi), lo, hi) = clampNumber(x, lo, hi) and
lo <= clampNumber(x, lo, hi) <= hi. -/
theorem clampNumber_idempotent_bounded (x lo hi : ℚ) (h : lo ≤ hi) :
    clampNumber (clampNumber x lo hi) lo hi = clampNumber x lo hi ∧
      lo ≤ clampNumber x lo hi ∧ clampNumber x lo hi ≤ hi :=
  ⟨clampNumber_eq_self _ _ _ (le_clampNumber _ _ _ h) (clampNumber_le_right _ _ _),
    le_clampNumber _ _ _ h, clampNumber_le_right _ _ _⟩

theorem clampNumber_idempotent_bounded_witness :
    (1 : ℚ) ≤ 5 ∧
      (clampNumber (clampNumber 7 1 5) 1 5 = clampNumber 7 1 5 ∧
        (1 : ℚ) ≤ clampNumber 7 1 5 ∧ clampNumber 7 1 5 ≤ 5) :=
  ⟨by norm_num, clampNumber_idempotent_bounded 7 1 5 (by norm_num)⟩

/-! ### C10 -/

/-- C10: when the precondition lo <= hi is violated (lo > hi), clampNumber
returns hi for every input num, since the outer Math.min dominates. -/
theorem clampNumber_inverted_bounds (num min max : ℚ) (h : max < min) :
    clampNumber num min max = max := by
  unfold clampNumber
  exact min_eq_right (le_trans (le_of_lt h) (le_max_right num min))

theorem clampNumber_inverted_bounds_witness :
    (1 : ℚ) < 3 ∧ clampNumber (-5) 3 1 = 1 :=
  ⟨by norm_num, clampNumber_inverted_bounds (-5) 3 1 (by norm_num)⟩

/-! ### C9 -/

/-- C9: valueToPercent and percentToValue are mutual inverses: for min < max
and v in [min, max], percentToValue(valueToPercent(v, min, max), min, max)
equals v, exactly, over exact arithmetic. -/
theorem percentToValue_valueToPercent (v min max : ℚ)
    (hlt : min < max) (h1 : min ≤ v) (h2 : v ≤ max) :
    percentToValue (valueToPercent v min max) min max = v := by
  have hne : max - min ≠ 0 := sub_ne_zero.mpr (ne_of_gt hlt)
  unfold percentToValue valueToPercent
  rw [div_mul_cancel₀ _ hne]
  ring

theorem percentToValue_valueToPercent_witness :
    ((0 : ℚ) < 10 ∧ (0 : ℚ) ≤ 3 ∧ (3 : ℚ) ≤ 10) ∧
      percentToValue (valueToPercent 3 0 10) 0 10 = 3 :=
  ⟨⟨by norm_num, by norm_num, by norm_num⟩,
    percentToValue_valueToPercent 3 0 10 (by norm_num) (by norm_num) (by norm_num)⟩

/-! ### C7 -/

/-- C7 (amended): the main variant (and the identical kernels of part_000 and
part_002) resolves progressStep = (step > 0 ? step : 1) / max, including an
omitted step; the part_003 variant computes that formula times 100 (percent
units); the part_001 variant instead computes (step / max) * 100 with no
positivity fallback, so a step of 0 yields a progress-step of 0. -/
theorem step_resolution_variants (stepOpt : Option ℚ) (max : ℚ) :
    calcStepValue stepOpt max = specProgressStep (stepOpt.getD 1) max ∧
      Variant003.calcStepValue stepOpt max = specProgressStep (stepOpt.getD 1) max * 100 ∧
      Variant001.calcStepValue stepOpt max = stepOpt.getD 1 / max * 100 ∧
      Variant001.calcStepValue (some 0) max = 0 := by
  refine ⟨rfl, rfl, rfl, ?_⟩
  simp [Variant001.calcStepValue]

/-- C7 is false as stated: the part_001 variant resolves step = 2, max = 100
to 2, not to the spec formula's 2 / 100. -/
theorem step_resolution_variant001_diverges :
    Variant001.calcStepValue (some 2) 100 = 2 ∧ specProgressStep 2 100 = 1 / 50 ∧
      Variant001.calcStepValue (some 2) 100 ≠ specProgressStep 2 100 := by
  refine ⟨by norm_num [Variant001.calcStepValue], by norm_num [specProgressStep], ?_⟩
  norm_num [Variant001.calcStepValue, specProgressStep]

/-! ### C5 -/

/-- C5 (amended): in the main variant an interaction event that is neither a
MouseEvent nor a TouchEvent makes coordinate extraction throw the
unsupported-event error; the part_000 and part_003 variants instead fall
through silently and return a zero coordinate. -/
theorem interaction_coords_unsupported :
    Slider.getInteractionCoords SomeEvent.other = Except.error "Unsuported event" ∧
      Variant000.getEventCoords SomeEvent.other = (0, 0) ∧
      Variant003.getInteractionCoords SomeEvent.other = 0 :=
  ⟨rfl, rfl, rfl⟩

/-- C5 is false as stated: in the part_000 variant, extraction from an event
that is neither mouse nor touch does not fail; it returns the zero
coordinate pair, and part_003 likewise returns 0. -/
theorem interaction_coords_silent_zero :
    Variant000.getEventCoords SomeEvent.other = (0, 0) ∧
      Variant003.getInteractionCoords SomeEvent.other = 0 ∧
      Variant000.getEventCoords SomeEvent.other ≠ (1, 1) :=
  ⟨rfl, rfl, by simp [Variant000.getEventCoords]⟩

/-! ### More projection helpers -/

theorem updateProgressValue_min (s : Slider) (x : ℚ) :
    (s.updateProgressValue x).min = s.min := rfl

theorem updateProgressValue_max (s : Slider) (x : ℚ) :
    (s.updateProgressValue x).max = s.max := rfl

theorem updateProgressValue_step (s : Slider) (x : ℚ) :
    (s.updateProgressValue x).step = s.step := rfl

theorem mkSlider_min (min max : ℚ) (stepOpt defOpt : Option ℚ) (b : Bool) :
    (mkSlider min max stepOpt defOpt b).min = min := rfl

theorem mkSlider_max (min max : ℚ) (stepOpt defOpt : Option ℚ) (b : Bool) :
    (mkSlider min max stepOpt defOpt b).max = max := rfl

theorem mkSlider_step (min max : ℚ) (stepOpt defOpt : Option ℚ) (b : Bool) :
    (mkSlider min max stepOpt defOpt b).step = calcStepValue stepOpt max := rfl

theorem calcStepValue_eq (stepOpt : Option ℚ) (max : ℚ) :
    calcStepValue stepOpt max = effectiveStep stepOpt / max := rfl

/-! ### C1 -/

/-- C1 (amended): for every slider instance whose min is an integer and
min < max, every raw progress input and every key, the derived public value
lies in [min, max]. -/
theorem value_within_bounds (min max : ℚ) (stepOpt defOpt : Option ℚ) (b : Bool)
    (raw : ℚ) (key : String) (h1 : min < max) (hmin : (⌊min⌋ : ℚ) = min) :
    (min ≤ ((mkSlider min max stepOpt defOpt b).updateProgressValue raw).value ∧
      ((mkSlider min max stepOpt defOpt b).updateProgressValue raw).value ≤ max) ∧
    (min ≤ (((mkSlider min max stepOpt defOpt b).onKeyDown key).1).value ∧
      (((mkSlider min max stepOpt defOpt b).onKeyDown key).1).value ≤ max) :=
  ⟨value_mem _ (le_of_lt h1) hmin, value_mem _ (le_of_lt h1) hmin⟩

theorem value_within_bounds_witness :
    ((0 : ℚ) < 100 ∧ (⌊(0 : ℚ)⌋ : ℚ) = 0) ∧
      (((0 : ℚ) ≤ ((mkSlider 0 100 none none false).updateProgressValue (3/10)).value ∧
          ((mkSlider 0 100 none none false).updateProgressValue (3/10)).value ≤ 100) ∧
        ((0 : ℚ) ≤ (((mkSlider 0 100 none none false).onKeyDown "a").1).value ∧
          (((mkSlider 0 100 none none false).onKeyDown "a").1).value ≤ 100)) :=
  ⟨⟨by norm_num, by norm_num⟩,
    value_within_bounds 0 100 none none false (3/10) "a" (by norm_num) (by norm_num)⟩

/-- C1 is false as stated: with min = 1/2, max = 2 (so min < max) and raw
progress 3/10, the derived public value is 0, strictly below min. -/
theorem value_below_min :
    Slider.value ((mkSlider (1/2) 2 none none false).updateProgressValue (3/10)) = 0 ∧
      ¬ ((1 : ℚ)/2 ≤
        Slider.value ((mkSlider (1/2) 2 none none false).updateProgressValue (3/10))) := by
  constructor <;>
    norm_num [mkSlider, Slider.value, Slider.updateProgressValue, Slider.initDefaultValue,
      calcStepValue, clampNumber, jsFloor]

/-! ### C2 -/

/-- C2 (amended): after an End keydown — which stores progress exactly 1,
since clamping to the upper bound 1 yields 1 whatever the lower bound — the
derived public value equals max, provided min < max, max ≠ 0 (the source
divides by max), max is an integer, and the effective step (the supplied
step when positive, else 1) divides max evenly. -/
theorem end_key_yields_max (min max : ℚ) (stepOpt defOpt : Option ℚ) (b : Bool) (k : ℤ)
    (h1 : min < max) (hne : max ≠ 0) (hmax : (⌊max⌋ : ℚ) = max)
    (hdvd : (k : ℚ) * effectiveStep stepOpt = max) :
    (((mkSlider min max stepOpt defOpt b).onKeyDown "End").1).value = max := by
  have hepos : 0 < effectiveStep stepOpt := by
    unfold effectiveStep
    split
    · assumption
    · norm_num
  rw [onKeyDown_fst, keyNewValue_end]
  have hprog : ((mkSlider min max stepOpt defOpt b).updateProgressValue 1).progressValue = 1 := by
    rw [updateProgressValue_progress]
    exact clampNumber_top _ 1
  simp only [Slider.value, updateProgressValue_max, updateProgressValue_min,
    updateProgressValue_step, mkSlider_min, mkSlider_max, mkSlider_step, calcStepValue_eq, hprog]
  rw [mul_one, div_mul_cancel₀ _ hne]
  have harg : max / effectiveStep stepOpt = (k : ℚ) := by
    rw [← hdvd, mul_div_cancel_right₀ _ (ne_of_gt hepos)]
  rw [harg, jsFloor_intCast, hdvd,
    clampNumber_eq_self max min max (le_of_lt h1) le_rfl]
  exact hmax

theorem end_key_yields_max_witness :
    ((0 : ℚ) < 100 ∧ (100 : ℚ) ≠ 0 ∧ (⌊(100 : ℚ)⌋ : ℚ) = 100 ∧
        ((5 : ℤ) : ℚ) * effectiveStep (some 20) = 100) ∧
      (((mkSlider 0 100 (some 20) none false).onKeyDown "End").1).value = 100 :=
  ⟨⟨by norm_num, by norm_num, by norm_num, by norm_num [effectiveStep]⟩,
    end_key_yields_max 0 100 (some 20) none false 5 (by norm_num) (by norm_num)
      (by norm_num) (by norm_num [effectiveStep])⟩

/-- C2 is false as stated: with min = 0, max = 100, step = 30 (a step that
does not divide max), the value after an End keydown is 90, not 100. -/
theorem end_key_not_max :
    Slider.value (((mkSlider 0 100 (some 30) none false).onKeyDown "End").1) = 90 ∧
      Slider.value (((mkSlider 0 100 (some 30) none false).onKeyDown "End").1) ≠ 100 := by
  have h : (((mkSlider 0 100 (some 30) none false).onKeyDown "End").1)
      = (mkSlider 0 100 (some 30) none false).updateProgressValue 1 := by
    rw [onKeyDown_fst, keyNewValue_end]
  rw [h]
  constructor <;>
    norm_num [mkSlider, Slider.value, Slider.updateProgressValue, Slider.initDefaultValue,
      calcStepValue, clampNumber, jsFloor]

/-! ### C4 -/

/-- C4 (amended): for a keydown whose key is none of the eight recognized
keys, the stored progress is unchanged (the handler re-clamps it, a no-op
whenever the stored progress already satisfies the clamp), but the handler
still runs the notification step, so a registered onChange callback IS
invoked with the unchanged current value. -/
theorem onKeyDown_unrecognized (s : Slider) (key : String)
    (h1 : key ≠ "ArrowUp") (h2 : key ≠ "ArrowRight") (h3 : key ≠ "ArrowDown")
    (h4 : key ≠ "ArrowLeft") (h5 : key ≠ "Home") (h6 : key ≠ "End")
    (h7 : key ≠ "PageUp") (h8 : key ≠ "PageDown")
    (hinv : clampNumber s.progressValue (s.min / s.max) 1 = s.progressValue) :
    (s.onKeyDown key).1 = s ∧
      (s.onKeyDown key).2 = (if s.hasOnChange then some s.value else none) := by
  have hk : s.keyNewValue key = s.progressValue := by
    simp [Slider.keyNewValue, h1, h2, h3, h4, h5, h6, h7, h8]
  have hs : (s.onKeyDown key).1 = s := by
    rw [onKeyDown_fst, hk]
    simp only [Slider.updateProgressValue]
    rw [hinv]
  refine ⟨hs, ?_⟩
  have hsnd : (s.onKeyDown key).2 = ((s.onKeyDown key).1).notifyListeners := rfl
  rw [hsnd, hs, Slider.notifyListeners]

theorem onKeyDown_unrecognized_witness :
    ("a" ≠ "ArrowUp" ∧
        clampNumber (mkSlider 0 100 (some 1) none true).progressValue
          ((mkSlider 0 100 (some 1) none true).min / (mkSlider 0 100 (some 1) none true).max) 1 =
          (mkSlider 0 100 (some 1) none true).progressValue) ∧
      (((mkSlider 0 100 (some 1) none true).onKeyDown "a").1 = mkSlider 0 100 (some 1) none true ∧
        ((mkSlider 0 100 (some 1) none true).onKeyDown "a").2 =
          (if (mkSlider 0 100 (some 1) none true).hasOnChange
            then some (mkSlider 0 100 (some 1) none true).value else none)) :=
  ⟨⟨by decide,
      by norm_num [mkSlider, Slider.initDefaultValue, Slider.updateProgressValue, calcStepValue,
        clampNumber]⟩,
    onKeyDown_unrecognized (mkSlider 0 100 (some 1) none true) "a"
      (by decide) (by decide) (by decide) (by decide) (by decide) (by decide) (by decide)
      (by decide)
      (by norm_num [mkSlider, Slider.initDefaultValue, Slider.updateProgressValue, calcStepValue,
        clampNumber])⟩

/-- C4 is false as stated: on the key "a" (recognized by no case) the handler
still invokes the registered onChange callback, here with the current
value 0 — the callback invocation is observable. -/
theorem onKeyDown_unrecognized_notifies :
    ((mkSlider 0 100 (some 1) none true).onKeyDown "a").2 = some 0 ∧
      ((mkSlider 0 100 (some 1) none true).onKeyDown "a").2 ≠ none := by
  have hk : (mkSlider 0 100 (some 1) none true).keyNewValue "a"
      = (mkSlider 0 100 (some 1) none true).progressValue := by
    simp [Slider.keyNewValue]
  have hsnd : ((mkSlider 0 100 (some 1) none true).onKeyDown "a").2
      = ((mkSlider 0 100 (some 1) none true).updateProgressValue
          ((mkSlider 0 100 (some 1) none true).keyNewValue "a")).notifyListeners := rfl
  rw [hsnd, hk]
  have hmain : ((mkSlider 0 100 (some 1) none true).updateProgressValue
      (mkSlider 0 100 (some 1) none true).progressValue).notifyListeners = some 0 := by
    norm_num [mkSlider, Slider.initDefaultValue, Slider.updateProgressValue,
      Slider.notifyListeners, Slider.value, calcStepValue, clampNumber, jsFloor]
  rw [hmain]
  exact ⟨rfl, by simp⟩

/-! ### C3 -/

/-- C3: for 0 <= min < max, the stored progress lies in [min / max, 1] after
construction, after every keydown, and after every pointer interaction that
succeeds in extracting a coordinate. -/
theorem slider_progress_invariant (min max : ℚ) (stepOpt defOpt : Option ℚ) (b : Bool)
    (s : Slider) (key : String) (evt : SomeEvent) (left width : ℚ) (r : Slider × Option ℚ)
    (h0 : 0 ≤ min) (h1 : min < max) (hsmin : s.min = min) (hsmax : s.max = max) :
    progressInRange min max (mkSlider min max stepOpt defOpt b) ∧
      progressInRange min max (s.onKeyDown key).1 ∧
      (s.onInteraction evt left width = Except.ok r → progressInRange min max r.1) := by
  have hmaxpos : 0 < max := lt_of_le_of_lt h0 h1
  have hmm : min / max ≤ 1 := (div_le_one hmaxpos).mpr (le_of_lt h1)
  subst hsmin
  subst hsmax
  refine ⟨?_, ?_, ?_⟩
  · exact updateProgressValue_mem _ _ hmm
  · exact updateProgressValue_mem _ _ hmm
  · cases evt with
    | mouse x y =>
      intro h
      have hr : (s.updateProgressValue ((x - left) / (width - 10)),
          (s.updateProgressValue ((x - left) / (width - 10))).notifyListeners) = r :=
        Except.ok.inj h
      rw [← hr]
      exact updateProgressValue_mem _ _ hmm
    | touch x y =>
      intro h
      have hr : (s.updateProgressValue ((x - left) / (width - 10)),
          (s.updateProgressValue ((x - left) / (width - 10))).notifyListeners) = r :=
        Except.ok.inj h
      rw [← hr]
      exact updateProgressValue_mem _ _ hmm
    | other =>
      intro h
      exact absurd h (by simp [Slider.onInteraction, Slider.getInteractionCoords])

theorem slider_progress_invariant_witness :
    ((0 : ℚ) ≤ 0 ∧ (0 : ℚ) < 100 ∧
        (mkSlider 0 100 none none false).min = 0 ∧ (mkSlider 0 100 none none false).max = 100) ∧
      (progressInRange 0 100 (mkSlider 0 100 none none false) ∧
        progressInRange 0 100 ((mkSlider 0 100 none none false).onKeyDown "ArrowUp").1 ∧
        ((mkSlider 0 100 none none false).onInteraction (SomeEvent.mouse 55 0) 5 110 =
            Except.ok ((mkSlider 0 100 none none false, none) : Slider × Option ℚ) →
          progressInRange 0 100
            (((mkSlider 0 100 none none false, none) : Slider × Option ℚ)).1)) :=
  ⟨⟨by norm_num, by norm_num, rfl, rfl⟩,
    slider_progress_invariant 0 100 none none false (mkSlider 0 100 none none false)
      "ArrowUp" (SomeEvent.mouse 55 0) 5 110 (mkSlider 0 100 none none false, none)
      (by norm_num) (by norm_num) rfl rfl⟩

/-! ### C6 -/

/-- The six reachable stops for min = 0, max = 100, step = 20. -/
def isTwentyStop (v : ℚ) : Prop :=
  v = 0 ∨ v = 20 ∨ v = 40 ∨ v = 60 ∨ v = 80 ∨ v = 100

theorem value_s020 (raw : ℚ) :
    isTwentyStop (Slider.value ((mkSlider 0 100 (some 20) none false).updateProgressValue raw)) := by
  have hp : ((mkSlider 0 100 (some 20) none false).updateProgressValue raw).progressValue
      = clampNumber raw ((0 : ℚ) / 100) 1 := by
    rw [updateProgressValue_progress, mkSlider_min, mkSlider_max]
  have h0p : (0 : ℚ) ≤ ((mkSlider 0 100 (some 20) none false).updateProgressValue raw).progressValue := by
    rw [hp]
    have h := le_clampNumber raw ((0 : ℚ) / 100) 1 (by norm_num)
    linarith
  have h1p : ((mkSlider 0 100 (some 20) none false).updateProgressValue raw).progressValue ≤ 1 := by
    rw [hp]
    exact clampNumber_le_right _ _ _
  generalize hq : ((mkSlider 0 100 (some 20) none false).updateProgressValue raw).progressValue = q at h0p h1p
  simp only [Slider.value, updateProgressValue_max, updateProgressValue_min,
    updateProgressValue_step, mkSlider_min, mkSlider_max, mkSlider_step, hq]
  have hstep : calcStepValue (some 20) 100 * (100 : ℚ) = 20 := by
    norm_num [calcStepValue]
  rw [hstep]
  have harg : (100 : ℚ) * q / 20 = 5 * q := by ring
  rw [harg]
  have hfl : jsFloor (5 * q) = ((⌊5 * q⌋ : ℤ) : ℚ) := rfl
  rw [hfl]
  have hk0 : 0 ≤ ⌊5 * q⌋ := Int.floor_nonneg.mpr (by linarith)
  have hk5 : ⌊5 * q⌋ ≤ 5 := by
    have h5 : (5 : ℚ) * q ≤ 5 := by linarith
    have := Int.floor_mono h5
    simpa using this
  generalize hkk : ⌊5 * q⌋ = k at hk0 hk5
  interval_cases k <;>
    norm_num [isTwentyStop, jsFloor, clampNumber]

/-- C6: for min = 0, max = 100, step = 20, every raw progress input (and in
particular every mouse drag, whatever its coordinate and track geometry)
yields a derived public value in {0, 20, 40, 60, 80, 100}. -/
theorem step_quantization (raw pageX pageY left width : ℚ) :
    isTwentyStop (Slider.value ((mkSlider 0 100 (some 20) none false).updateProgressValue raw)) ∧
      ∃ r : Slider × Option ℚ,
        (mkSlider 0 100 (some 20) none false).onInteraction
            (SomeEvent.mouse pageX pageY) left width = Except.ok r ∧
          isTwentyStop (Slider.value r.1) := by
  refine ⟨value_s020 raw, ⟨((mkSlider 0 100 (some 20) none false).updateProgressValue
    ((pageX - left) / (width - 10)),
    ((mkSlider 0 100 (some 20) none false).updateProgressValue
      ((pageX - left) / (width - 10))).notifyListeners), rfl, ?_⟩⟩
  exact value_s020 ((pageX - left) / (width - 10))
